import Mathlib

/-!
Verification of the appointment scheduling core of the SmileCare clinic
backend (Backend/models/Appointment.js, Backend/models/Dentist.js,
Backend/controllers/patientController.js), shallowly embedded in Lean.

Conventions of the embedding:
* MongoDB object ids are opaque; we model them as `Nat`.
* Calendar dates carry the day-of-week (`dow`, the result of JS
  `Date.getDay()`) and a day ordinal (`ord`) standing for the date value;
  the source compares dates either as `Date` values or as ISO
  `YYYY-MM-DD` strings, and both orders agree with the order on `ord`.
* Times of day stay `String`s in `HH:MM` form, compared lexicographically
  exactly as the JS code and the MongoDB `$lt`/`$gt` operators compare
  them.
* `new Date()` timestamps are threaded in as an explicit `now : Nat`
  parameter; database state is an explicit list of appointments.
* Mongoose schema validation is outside the modelled behaviour; the
  `pre('save')` hook that recomputes `duration` from the times is modelled
  because `cancel` and `reschedule` go through `save()`.
-/

namespace Smile

/-- Appointment status enum of `appointmentSchema.status`. -/
inductive Status
  | scheduled
  | confirmed
  | inProgress
  | completed
  | cancelled
  | noShow
  | rescheduled
deriving DecidableEq

/-- Actor enum used by `cancellation.cancelledBy` and
`rescheduling.rescheduledBy`. -/
inductive Actor
  | patient
  | dentist
  | staff
  | system
deriving DecidableEq

/-- A calendar date: `dow` is `Date.getDay()` (0 = Sunday .. 6 = Saturday),
`ord` a day ordinal standing for the date value itself. -/
structure DateCal where
  dow : Nat
  ord : Nat
deriving DecidableEq

/-- The `cancellation` sub-document of an appointment. -/
structure CancellationRecord where
  reason : String
  cancelledBy : Actor
  cancelledAt : Nat
  refundAmount : Nat
deriving DecidableEq

/-- The `rescheduling` sub-document of an appointment. -/
structure ReschedulingRecord where
  originalDate : DateCal
  originalTime : String
  reason : String
  rescheduledBy : Actor
  rescheduledAt : Nat
deriving DecidableEq

/-- A `treatments` entry (`treatmentSchema`). -/
structure Treatment where
  name : String
  duration : Nat
  cost : Nat
deriving DecidableEq

/-- The `cost` sub-document of an appointment. -/
structure CostInfo where
  estimated : Option Nat
  actual : Option Nat
  insuranceCovered : Nat
  patientPayment : Option Nat
deriving DecidableEq

/-- An appointment document (`appointmentSchema`), restricted to the fields
the scheduling core reads or writes. -/
structure Appointment where
  id : Nat
  patient : Nat
  dentist : Nat
  appointmentDate : DateCal
  startTime : String
  endTime : String
  duration : Int
  typ : String
  status : Status
  priority : String
  reason : String
  symptoms : List String
  treatments : List Treatment
  cost : CostInfo
  cancellation : Option CancellationRecord
  rescheduling : Option ReschedulingRecord
deriving DecidableEq

/-- Lexicographic order on character lists by code point, the order JS `<`
and MongoDB `$lt`/`$gt` use on the `HH:MM` strings of this code base. -/
def charListLt : List Char → List Char → Bool
  | [], [] => false
  | [], _ :: _ => true
  | _ :: _, [] => false
  | a :: as, b :: bs =>
    if a.toNat < b.toNat then true
    else if b.toNat < a.toNat then false
    else charListLt as bs

/-- JS string comparison `a < b`. -/
def strLt (a b : String) : Bool := charListLt a.data b.data

/-- `s.split(':')` on the underlying character list. -/
def splitColon : List Char → List (List Char)
  | [] => [[]]
  | c :: rest =>
    let r := splitColon rest
    if c = ':' then [] :: r
    else
      match r with
      | [] => [[c]]
      | h :: t => (c :: h) :: t

def isDigitChar (c : Char) : Bool := 48 ≤ c.toNat && c.toNat ≤ 57

/-- JS `Number(...)` on a digit string (the only shape the `HH:MM` fields
take); a non-numeric part contributes 0. -/
def parseNatD (cs : List Char) : Nat :=
  if cs ≠ [] ∧ cs.all isDigitChar then
    cs.foldl (fun acc c => acc * 10 + (c.toNat - 48)) 0
  else 0

/-- `s.split(':').map(Number)` turned into minutes from midnight:
`h * 60 + m` for a `HH:MM` string. -/
def timeMinutes (s : String) : Nat :=
  match splitColon s.data with
  | h :: m :: _ => parseNatD h * 60 + parseNatD m
  | _ => 0

/-- The `pre('save')` hook recomputing `duration` from `startTime` and
`endTime` (`endTotalMinutes - startTotalMinutes`, a JS number that can be
negative, hence `Int`). -/
def applySaveHook (a : Appointment) : Appointment :=
  { a with duration := (timeMinutes a.endTime : Int) - (timeMinutes a.startTime : Int) }

/-- `appointmentSchema.methods.cancel`: set status to `cancelled`, write the
cancellation record, save (which recomputes `duration`). -/
def Appointment.cancel (a : Appointment) (reason : String) (cancelledBy : Actor)
    (refundAmount : Nat) (now : Nat) : Appointment :=
  applySaveHook { a with
    status := .cancelled
    cancellation := some ⟨reason, cancelledBy, now, refundAmount⟩ }

/-- `appointmentSchema.methods.reschedule`: record the original date/time,
overwrite the interval, set status to `rescheduled`, save. -/
def Appointment.reschedule (a : Appointment) (newDate : DateCal)
    (newStartTime newEndTime : String) (reason : String) (rescheduledBy : Actor)
    (now : Nat) : Appointment :=
  applySaveHook { a with
    rescheduling := some ⟨a.appointmentDate, a.startTime, reason, rescheduledBy, now⟩
    appointmentDate := newDate
    startTime := newStartTime
    endTime := newEndTime
    status := .rescheduled }

/-- The per-document predicate of the `Appointment.checkConflict` query:
same dentist, same date, status not in {cancelled, no-show}, id different
from `excludeId` when one is given, and the half-open overlap condition
`startTime < endTime' AND endTime > startTime'` on `HH:MM` strings. -/
def conflictPred (dentistId : Nat) (date : DateCal) (startTime endTime : String)
    (excludeId : Option Nat) (a : Appointment) : Bool :=
  a.dentist == dentistId && a.appointmentDate.ord == date.ord &&
  !(a.status == .cancelled || a.status == .noShow) &&
  strLt a.startTime endTime && strLt startTime a.endTime &&
  (match excludeId with
   | some eid => a.id != eid
   | none => true)

/-- `appointmentSchema.statics.checkConflict`: `findOne` over the conflict
query, returning the conflicting appointment when one exists. -/
def checkConflict (appts : List Appointment) (dentistId : Nat) (date : DateCal)
    (startTime endTime : String) (excludeId : Option Nat) : Option Appointment :=
  appts.find? (conflictPred dentistId date startTime endTime excludeId)

/-- Dentist status enum of `dentistSchema.status`. -/
inductive DentistStatus
  | active
  | inactive
  | onLeave
  | suspended
deriving DecidableEq

/-- A `schedule.regularHours` entry (`availabilitySlotSchema`). -/
structure AvailabilitySlot where
  dayOfWeek : Nat
  startTime : String
  endTime : String
  isActive : Bool
deriving DecidableEq

/-- A `schedule.timeOff` entry (`timeOffSchema`), restricted to the fields
the availability logic reads. -/
structure TimeOff where
  startDate : DateCal
  endDate : DateCal
  isApproved : Bool
deriving DecidableEq

/-- The `schedule` sub-document of a dentist. -/
structure Schedule where
  regularHours : List AvailabilitySlot
  timeOff : List TimeOff
  consultationDuration : Nat
  bufferTime : Nat
deriving DecidableEq

/-- A dentist document, restricted to the fields the scheduling core reads. -/
structure Dentist where
  id : Nat
  status : DentistStatus
  schedule : Schedule
deriving DecidableEq

/-- The time-off scan shared by `isAvailableAt` and `getAvailableSlots`:
some interval contains the date (inclusive, by date comparison) and is
approved. -/
def hasApprovedTimeOff (d : Dentist) (date : DateCal) : Bool :=
  d.schedule.timeOff.any fun t =>
    decide (t.startDate.ord ≤ date.ord) && decide (date.ord ≤ t.endDate.ord) && t.isApproved

/-- `dentistSchema.methods.isAvailableAt`: first active rule for the
day-of-week, requested interval within the rule's bounds (string
comparison), no approved time off on the date. -/
def Dentist.isAvailableAt (d : Dentist) (date : DateCal) (startTime endTime : String) : Bool :=
  match d.schedule.regularHours.find? (fun s => s.dayOfWeek == date.dow && s.isActive) with
  | none => false
  | some rh =>
    if strLt startTime rh.startTime || strLt rh.endTime endTime then false
    else !hasApprovedTimeOff d date

/-- The slot-generation loop of `getAvailableSlots`:
`for (let minutes = m; minutes + dur <= endM; minutes += step)`; modelled with
a fuel argument (structural recursion), which the caller instantiates with a
provably sufficient amount. -/
def genSlots : Nat → Nat → Nat → Nat → Nat → List Nat
  | 0, _, _, _, _ => []
  | fuel + 1, m, dur, step, endM =>
    if m + dur ≤ endM then m :: genSlots fuel (m + step) dur step endM else []

/-- `String(n).padStart(2, '0')`. -/
def pad2 (n : Nat) : String :=
  if n < 10 then "0" ++ toString n else toString n

/-- Minutes from midnight back to a zero-padded `HH:MM` string. -/
def fmtTime (m : Nat) : String :=
  pad2 (m / 60) ++ ":" ++ pad2 (m % 60)

/-- `dentistSchema.methods.getAvailableSlots`: first active rule for the
day-of-week (else `[]`), empty on approved time off, then the generation
loop stepping by `consultationDuration + bufferTime` while the slot still
fits before closing. -/
def Dentist.getAvailableSlots (d : Dentist) (date : DateCal) : List String :=
  match d.schedule.regularHours.find? (fun s => s.dayOfWeek == date.dow && s.isActive) with
  | none => []
  | some rh =>
    if hasApprovedTimeOff d date then []
    else
      let duration := d.schedule.consultationDuration
      let buffer := d.schedule.bufferTime
      let totalSlotTime := duration + buffer
      let startMinutes := timeMinutes rh.startTime
      let endMinutes := timeMinutes rh.endTime
      (genSlots (endMinutes + 1) startMinutes duration totalSlotTime endMinutes).map fmtTime

/-- Outcomes surfaced by the appointment controllers: the HTTP-mapped
domain responses, plus `nullDereference` for a JS `TypeError` thrown when
code dereferences a missing document (not a domain response at all). -/
inductive ApiError
  | notFound
  | badRequest (msg : String)
  | conflictError (msg : String)
  | nullDereference
deriving DecidableEq

/-- Replace the stored appointment with the given id by its mutated value
(the effect of `appointment.save()` on the collection). -/
def saveInto (appts : List Appointment) (a : Appointment) : List Appointment :=
  appts.map fun x => if x.id == a.id then a else x

/-- `cancelAppointment` (patientController): look up by id, reject if
already `cancelled` or if `completed`, otherwise run the model's `cancel`
and persist. Returns the controller outcome and the post-state of the
collection. Authentication/permission plumbing is out of scope. -/
def cancelAppointment (appts : List Appointment) (id : Nat) (reason : String)
    (refundAmount : Nat) (cancelledBy : Actor) (now : Nat) :
    Except ApiError Appointment × List Appointment :=
  match appts.find? (·.id == id) with
  | none => (.error .notFound, appts)
  | some a =>
    if a.status = .cancelled then
      (.error (.badRequest "Appointment is already cancelled"), appts)
    else if a.status = .completed then
      (.error (.badRequest "Cannot cancel completed appointment"), appts)
    else
      let a' := a.cancel reason cancelledBy refundAmount now
      (.ok a', saveInto appts a')

/-- `rescheduleAppointment` (patientController): status guard, past-date
guard, dentist lookup — the looked-up dentist is dereferenced with no
missing-document check, so an absent dentist is a `nullDereference` —
availability check, conflict check excluding the appointment's own id,
then the model's `reschedule`. -/
def rescheduleAppointment (appts : List Appointment) (dentists : List Dentist)
    (id : Nat) (newDate : DateCal) (newStartTime newEndTime : String)
    (reason : String) (rescheduledBy : Actor) (today : Nat) (now : Nat) :
    Except ApiError Appointment × List Appointment :=
  match appts.find? (·.id == id) with
  | none => (.error .notFound, appts)
  | some a =>
    if a.status = .cancelled ∨ a.status = .completed then
      (.error (.badRequest "Cannot reschedule cancelled or completed appointment"), appts)
    else if newDate.ord < today then
      (.error (.badRequest "New appointment date cannot be in the past"), appts)
    else
      match dentists.find? (·.id == a.dentist) with
      | none => (.error .nullDereference, appts)
      | some dentist =>
        if !dentist.isAvailableAt newDate newStartTime newEndTime then
          (.error (.conflictError "Dentist is not available at the requested time"), appts)
        else if (checkConflict appts a.dentist newDate newStartTime newEndTime (some id)).isSome then
          (.error (.conflictError "New appointment time conflicts with existing appointment"), appts)
        else
          let a' := a.reschedule newDate newStartTime newEndTime reason rescheduledBy now
          (.ok a', saveInto appts a')

/-- `confirmAppointment` (patientController): a bare
`findByIdAndUpdate(id, \x7b status: 'confirmed' \x7d)` — no status guard of any
kind, and `findByIdAndUpdate` bypasses the `pre('save')` hooks. -/
def confirmAppointment (appts : List Appointment) (id : Nat) :
    Except ApiError Appointment × List Appointment :=
  match appts.find? (·.id == id) with
  | none => (.error .notFound, appts)
  | some a =>
    let a' := { a with status := Status.confirmed }
    (.ok a', saveInto appts a')

/-- The body of `updateAppointment`'s `req.body` restricted to the fields
whose presence drives re-validation. -/
structure AppointmentUpdates where
  appointmentDate : Option DateCal
  startTime : Option String
  endTime : Option String
  dentist : Option Nat
deriving DecidableEq

/-- `findByIdAndUpdate(id, updates)`: overwrite exactly the supplied
fields (no `pre('save')` hooks run on this path). -/
def applyUpdates (a : Appointment) (u : AppointmentUpdates) : Appointment :=
  { a with
    appointmentDate := u.appointmentDate.getD a.appointmentDate
    startTime := u.startTime.getD a.startTime
    endTime := u.endTime.getD a.endTime
    dentist := u.dentist.getD a.dentist }

/-- `updateAppointment` (patientController): when the updates touch
date, start or end time, it recomputes the candidate interval (falling back
to stored values), runs the dentist existence/active/availability checks
only when `updates.dentist` is itself present, and always runs the conflict
check excluding the appointment's own id; when no date/time field is
touched, no validation runs at all. -/
def updateAppointment (appts : List Appointment) (dentists : List Dentist)
    (id : Nat) (u : AppointmentUpdates) :
    Except ApiError Appointment × List Appointment :=
  match appts.find? (·.id == id) with
  | none => (.error .notFound, appts)
  | some a =>
    if u.appointmentDate.isSome || u.startTime.isSome || u.endTime.isSome then
      let newDate := u.appointmentDate.getD a.appointmentDate
      let newStartTime := u.startTime.getD a.startTime
      let newEndTime := u.endTime.getD a.endTime
      let dentistId := u.dentist.getD a.dentist
      let conflictStep : Except ApiError Appointment × List Appointment :=
        if (checkConflict appts dentistId newDate newStartTime newEndTime (some id)).isSome then
          (.error (.conflictError "Appointment time conflicts with existing appointment"), appts)
        else
          let a' := applyUpdates a u
          (.ok a', saveInto appts a')
      match u.dentist with
      | none => conflictStep
      | some _ =>
        match dentists.find? (·.id == dentistId) with
        | none => (.error (.badRequest "Selected dentist is not available"), appts)
        | some dentist =>
          if dentist.status ≠ .active then
            (.error (.badRequest "Selected dentist is not available"), appts)
          else if !dentist.isAvailableAt newDate newStartTime newEndTime then
            (.error (.conflictError "Dentist is not available at the requested time"), appts)
          else conflictStep
    else
      let a' := applyUpdates a u
      (.ok a', saveInto appts a')

/-! ## Closed form of the slot-generation loop -/

/-- Number of iterations the slot-generation loop performs when started at
minute `m` with slot length `dur`, step `step` and closing time `endM`. -/
def slotCount (m endM dur step : Nat) : Nat :=
  if m + dur ≤ endM then (endM - dur - m) / step + 1 else 0

/-- Dentist with the unapproved time-off intervals dropped. -/
def onlyApproved (d : Dentist) : Dentist :=
  { d with schedule :=
      { d.schedule with timeOff := d.schedule.timeOff.filter (·.isApproved) } }

/-- Scenario C fixture: an existing 10:00–10:30 `scheduled` appointment of
dentist 7. -/
def aptScenC : Appointment :=
  { id := 1, patient := 2, dentist := 7, appointmentDate := ⟨1, 200⟩
    startTime := "10:00", endTime := "10:30", duration := 30, typ := "checkup"
    status := .scheduled, priority := "normal", reason := "toothache", symptoms := []
    treatments := [], cost := ⟨none, none, 0, none⟩
    cancellation := none, rescheduling := none }

/-- Scenario A fixture: active rule Monday 09:00–17:00, slot duration 30,
buffer 15, no time off. -/
def dentSlots : Dentist :=
  { id := 7, status := .active
    schedule := { regularHours := [⟨1, "09:00", "17:00", true⟩], timeOff := []
                  consultationDuration := 30, bufferTime := 15 } }

/-- C7 witness fixture: same rule as Scenario A, plus an approved absence
covering the target date and an unapproved one that must not matter. -/
def dentAbsent : Dentist :=
  { id := 8, status := .active
    schedule := { regularHours := [⟨1, "09:00", "17:00", true⟩]
                  timeOff := [⟨⟨0, 190⟩, ⟨0, 210⟩, true⟩]
                  consultationDuration := 30, bufferTime := 15 } }

/-- C7 witness fixture: only an unapproved absence covering the date. -/
def dentUnapproved : Dentist :=
  { id := 9, status := .active
    schedule := { regularHours := [⟨1, "09:00", "17:00", true⟩]
                  timeOff := [⟨⟨0, 190⟩, ⟨0, 210⟩, false⟩]
                  consultationDuration := 30, bufferTime := 15 } }

/-- C1 fixture: a scheduled appointment of dentist 7 and the dentist open
Mondays 09:00–17:00. -/
def aptResch : Appointment :=
  { id := 1, patient := 2, dentist := 7, appointmentDate := ⟨1, 200⟩
    startTime := "10:00", endTime := "10:30", duration := 30, typ := "checkup"
    status := .scheduled, priority := "normal", reason := "toothache", symptoms := []
    treatments := [], cost := ⟨none, none, 0, none⟩
    cancellation := none, rescheduling := none }

def dentResch : Dentist :=
  { id := 7, status := .active
    schedule := { regularHours := [⟨1, "09:00", "17:00", true⟩], timeOff := []
                  consultationDuration := 30, bufferTime := 15 } }

/-- C4 fixture: the appointment's own dentist works 09:00–17:00, and the
update moves only the times, to the evening. -/
def aptUpd : Appointment :=
  { id := 1, patient := 2, dentist := 7, appointmentDate := ⟨1, 200⟩
    startTime := "10:00", endTime := "10:30", duration := 30, typ := "checkup"
    status := .scheduled, priority := "normal", reason := "toothache", symptoms := []
    treatments := [], cost := ⟨none, none, 0, none⟩
    cancellation := none, rescheduling := none }

def dentUpd : Dentist :=
  { id := 7, status := .active
    schedule := { regularHours := [⟨1, "09:00", "17:00", true⟩], timeOff := []
                  consultationDuration := 30, bufferTime := 15 } }

def updEvening : AppointmentUpdates := ⟨none, some "18:00", some "18:30", none⟩

/-- C4 fixture: a second active dentist and an update that moves the times
and switches the appointment to that dentist. -/
def dentSwap : Dentist :=
  { id := 9, status := .active
    schedule := { regularHours := [⟨1, "09:00", "17:00", true⟩], timeOff := []
                  consultationDuration := 30, bufferTime := 15 } }

def updSwap : AppointmentUpdates := ⟨none, some "11:00", some "11:30", some 9⟩

/-- C5 fixture: a cancelled appointment. -/
def aptCancelled : Appointment :=
  { id := 1, patient := 2, dentist := 7, appointmentDate := ⟨1, 200⟩
    startTime := "10:00", endTime := "10:30", duration := 30, typ := "checkup"
    status := .cancelled, priority := "normal", reason := "toothache", symptoms := []
    treatments := [], cost := ⟨none, none, 0, none⟩
    cancellation := none, rescheduling := none }

/-- C6 fixture: a completed appointment (Scenario D). -/
def aptDone : Appointment :=
  { id := 1, patient := 2, dentist := 7, appointmentDate := ⟨1, 200⟩
    startTime := "10:00", endTime := "10:30", duration := 30, typ := "checkup"
    status := .completed, priority := "normal", reason := "toothache", symptoms := []
    treatments := [], cost := ⟨none, none, 0, none⟩
    cancellation := none, rescheduling := none }

/-- C9 fixture: a confirmed appointment in a cancellable state. -/
def aptLive : Appointment :=
  { id := 1, patient := 2, dentist := 7, appointmentDate := ⟨1, 200⟩
    startTime := "10:00", endTime := "10:30", duration := 30, typ := "checkup"
    status := .confirmed, priority := "normal", reason := "toothache", symptoms := []
    treatments := [⟨"cleaning", 30, 80⟩], cost := ⟨some 80, none, 0, none⟩
    cancellation := none, rescheduling := none }

/-- C10 fixture: the appointment references dentist 7 but the store has no
such dentist. -/
def aptOrphan : Appointment :=
  { id := 1, patient := 2, dentist := 7, appointmentDate := ⟨1, 200⟩
    startTime := "10:00", endTime := "10:30", duration := 30, typ := "checkup"
    status := .scheduled, priority := "normal", reason := "toothache", symptoms := []
    treatments := [], cost := ⟨none, none, 0, none⟩
    cancellation := none, rescheduling := none }

theorem slotCount_le (m endM dur step : Nat) : slotCount m endM dur step ≤ endM + 1 := by
  rw [slotCount]
  split
  · have := Nat.div_le_self (endM - dur - m) step
    omega
  · omega

theorem slotCount_iff (m endM dur step k : Nat) (hstep : 0 < step) :
    k < slotCount m endM dur step ↔ m + k * step + dur ≤ endM := by
  rw [slotCount]
  split
  · next hfit =>
    rw [Nat.lt_succ_iff, Nat.le_div_iff_mul_le hstep]
    omega
  · next hfit =>
    constructor
    · omega
    · intro hk
      exfalso
      have := Nat.zero_le (k * step)
      omega

theorem genSlots_closed (dur step endM : Nat) (hstep : 0 < step) :
    ∀ fuel m, slotCount m endM dur step ≤ fuel →
      genSlots fuel m dur step endM =
        (List.range (slotCount m endM dur step)).map (fun k => m + k * step) := by
  intro fuel
  induction fuel with
  | zero =>
    intro m h
    have h0 : slotCount m endM dur step = 0 := Nat.le_zero.mp h
    rw [h0]
    simp [genSlots]
  | succ fuel ih =>
    intro m h
    by_cases hfit : m + dur ≤ endM
    · have hcm : slotCount m endM dur step = (endM - dur - m) / step + 1 := by
        simp [slotCount, hfit]
      by_cases hnext : m + step + dur ≤ endM
      · have hle : step ≤ endM - dur - m := by omega
        have hsub : endM - dur - (m + step) = endM - dur - m - step := by omega
        have hcm' : slotCount (m + step) endM dur step = (endM - dur - m) / step := by
          rw [slotCount, if_pos hnext, hsub, Nat.div_eq_sub_div hstep hle]
        have hfuel : slotCount (m + step) endM dur step ≤ fuel := by
          rw [hcm'] ; rw [hcm] at h ; omega
        simp only [genSlots, if_pos hfit]
        rw [ih (m + step) hfuel, hcm, hcm', List.range_succ_eq_map, List.map_cons,
          List.map_map]
        simp only [Nat.zero_mul, Nat.add_zero]
        congr 1
        refine List.map_congr_left fun k _ => ?_
        simp only [Function.comp_apply, Nat.succ_mul]
        ring
      · have hlt : endM - dur - m < step := by omega
        have hcm1 : slotCount m endM dur step = 1 := by
          rw [hcm, Nat.div_eq_of_lt hlt]
        have hcm0 : slotCount (m + step) endM dur step = 0 := by
          simp [slotCount, hnext]
        simp only [genSlots, if_pos hfit]
        rw [ih (m + step) (by omega), hcm0, hcm1,
          show List.range 1 = [0] from rfl]
        simp
    · have h0 : slotCount m endM dur step = 0 := by
        simp [slotCount, hfit]
      rw [h0]
      simp [genSlots, hfit]

/-- The per-document predicate of the conflict query, in propositional form. -/
theorem conflictPred_iff (dentistId : Nat) (date : DateCal) (s e : String)
    (excludeId : Option Nat) (a : Appointment) :
    conflictPred dentistId date s e excludeId a = true ↔
      (a.dentist = dentistId ∧ a.appointmentDate.ord = date.ord ∧
       a.status ≠ .cancelled ∧ a.status ≠ .noShow ∧
       (∀ eid, excludeId = some eid → a.id ≠ eid) ∧
       strLt a.startTime e = true ∧ strLt s a.endTime = true) := by
  cases excludeId with
  | none => simp [conflictPred, and_assoc]
  | some eid =>
    simp [conflictPred, and_assoc]
    tauto

theorem hasApprovedTimeOff_filter (d : Dentist) (date : DateCal) :
    hasApprovedTimeOff (onlyApproved d) date = hasApprovedTimeOff d date := by
  unfold hasApprovedTimeOff onlyApproved
  simp only [List.any_filter]
  apply congrArg
  funext t
  cases h : t.isApproved <;> simp [h]

/-! ## Claim theorems: conflict detector and availability calculator -/

/-- C2: `hasConflict` is true iff some existing appointment of the same
practitioner on the same date, with status outside {cancelled, no-show} and
id different from `excludeId`, satisfies the half-open string-comparison
overlap `appointment.startTime < e AND appointment.endTime > s`; in
particular a candidate 10:15–10:45 against an existing 10:00–10:30 booking
conflicts while the touching candidate 10:30–11:00 does not. -/
theorem hasConflict_characterization :
    (∀ (appts : List Appointment) (dentistId : Nat) (date : DateCal) (s e : String)
        (excludeId : Option Nat),
      (checkConflict appts dentistId date s e excludeId).isSome = true ↔
        ∃ a ∈ appts, a.dentist = dentistId ∧ a.appointmentDate.ord = date.ord ∧
          a.status ≠ .cancelled ∧ a.status ≠ .noShow ∧
          (∀ eid, excludeId = some eid → a.id ≠ eid) ∧
          strLt a.startTime e = true ∧ strLt s a.endTime = true)
    ∧ (checkConflict [aptScenC] 7 ⟨1, 200⟩ "10:15" "10:45" none).isSome = true
    ∧ (checkConflict [aptScenC] 7 ⟨1, 200⟩ "10:30" "11:00" none).isSome = false := by
  refine ⟨fun appts dentistId date s e excludeId => ?_, by decide, by decide⟩
  rw [checkConflict, List.find?_isSome]
  constructor
  · rintro ⟨a, ha, hp⟩
    exact ⟨a, ha, (conflictPred_iff dentistId date s e excludeId a).1 hp⟩
  · rintro ⟨a, ha, hp⟩
    exact ⟨a, ha, (conflictPred_iff dentistId date s e excludeId a).2 hp⟩

/-- C3: when an active weekly rule matches the date's day-of-week and no
approved absence covers the date, `getAvailableSlots` returns exactly the
start times `ruleStart + k * (slotDuration + buffer)` for the `k` with
`start + slotDuration ≤ ruleEnd`, zero-padded `HH:MM`, in increasing order
of `k`; the second conjunct characterizes which `k` are emitted. -/
theorem available_slots_closed_form (d : Dentist) (date : DateCal) (rh : AvailabilitySlot)
    (hfind : d.schedule.regularHours.find?
      (fun s => s.dayOfWeek == date.dow && s.isActive) = some rh)
    (habs : hasApprovedTimeOff d date = false)
    (hstep : 0 < d.schedule.consultationDuration + d.schedule.bufferTime) :
    d.getAvailableSlots date =
      (List.range (slotCount (timeMinutes rh.startTime) (timeMinutes rh.endTime)
          d.schedule.consultationDuration
          (d.schedule.consultationDuration + d.schedule.bufferTime))).map
        (fun k => fmtTime (timeMinutes rh.startTime +
          k * (d.schedule.consultationDuration + d.schedule.bufferTime)))
    ∧ ∀ k, (k < slotCount (timeMinutes rh.startTime) (timeMinutes rh.endTime)
          d.schedule.consultationDuration
          (d.schedule.consultationDuration + d.schedule.bufferTime) ↔
        timeMinutes rh.startTime +
          k * (d.schedule.consultationDuration + d.schedule.bufferTime) +
          d.schedule.consultationDuration ≤ timeMinutes rh.endTime) := by
  constructor
  · simp only [Dentist.getAvailableSlots, hfind, habs, Bool.false_eq_true, if_false]
    rw [genSlots_closed _ _ _ hstep _ _ (slotCount_le _ _ _ _), List.map_map]
    rfl
  · intro k
    exact slotCount_iff _ _ _ _ k hstep

theorem available_slots_closed_form_witness :
    dentSlots.getAvailableSlots ⟨1, 200⟩ =
      ["09:00", "09:45", "10:30", "11:15", "12:00", "12:45", "13:30", "14:15",
       "15:00", "15:45", "16:30"] :=
  ((available_slots_closed_form dentSlots ⟨1, 200⟩ ⟨1, "09:00", "17:00", true⟩
      rfl rfl (by decide)).1).trans (by decide)

/-- C7: a date covered (inclusively) by an approved time-off interval makes
`getAvailableSlots` empty whatever the rules and policy are, and unapproved
intervals affect neither the computed slots nor `isAvailableAt`. -/
theorem approved_absence_semantics :
    (∀ (d : Dentist) (date : DateCal),
      (∃ t ∈ d.schedule.timeOff, t.isApproved = true ∧
        t.startDate.ord ≤ date.ord ∧ date.ord ≤ t.endDate.ord) →
      d.getAvailableSlots date = [])
    ∧ (∀ (d : Dentist) (date : DateCal) (s e : String),
        (onlyApproved d).getAvailableSlots date = d.getAvailableSlots date ∧
        (onlyApproved d).isAvailableAt date s e = d.isAvailableAt date s e) := by
  constructor
  · rintro d date ⟨t, ht, happ, h1, h2⟩
    have habs : hasApprovedTimeOff d date = true := by
      rw [hasApprovedTimeOff, List.any_eq_true]
      exact ⟨t, ht, by simp [happ, h1, h2]⟩
    rw [Dentist.getAvailableSlots]
    cases hfind : d.schedule.regularHours.find?
        (fun s => s.dayOfWeek == date.dow && s.isActive) with
    | none => rfl
    | some rh => simp [habs]
  · intro d date s e
    have hto := hasApprovedTimeOff_filter d date
    have hreg : (onlyApproved d).schedule.regularHours = d.schedule.regularHours := rfl
    have hdur : (onlyApproved d).schedule.consultationDuration =
        d.schedule.consultationDuration := rfl
    have hbuf : (onlyApproved d).schedule.bufferTime = d.schedule.bufferTime := rfl
    constructor
    · rw [Dentist.getAvailableSlots, Dentist.getAvailableSlots, hreg, hto, hdur, hbuf]
    · rw [Dentist.isAvailableAt, Dentist.isAvailableAt, hreg, hto]

theorem approved_absence_semantics_witness :
    dentAbsent.getAvailableSlots ⟨1, 200⟩ = [] ∧
    (onlyApproved dentUnapproved).getAvailableSlots ⟨1, 200⟩ =
      dentUnapproved.getAvailableSlots ⟨1, 200⟩ :=
  ⟨approved_absence_semantics.1 dentAbsent ⟨1, 200⟩
      ⟨⟨⟨0, 190⟩, ⟨0, 210⟩, true⟩, by decide, by decide, by decide, by decide⟩,
   (approved_absence_semantics.2 dentUnapproved ⟨1, 200⟩ "10:00" "10:30").1⟩

/-- C8: with a policy-conform slot duration (≥ 15 minutes) the generation
loop's result is independent of any fuel past the bound (the loop
terminates with no slot-count cap), and a start time is emitted iff it is
reachable from the rule start by whole steps and still fits before closing
— the sole exit condition. -/
theorem slot_loop_termination (startM endM dur buffer : Nat) (hdur : 15 ≤ dur) :
    (∀ fuel, endM + 1 ≤ fuel →
      genSlots fuel startM dur (dur + buffer) endM =
        genSlots (endM + 1) startM dur (dur + buffer) endM)
    ∧ (∀ x, x ∈ genSlots (endM + 1) startM dur (dur + buffer) endM ↔
        ∃ k, x = startM + k * (dur + buffer) ∧ x + dur ≤ endM) := by
  have hstep : 0 < dur + buffer := by omega
  have hcle : slotCount startM endM dur (dur + buffer) ≤ endM + 1 :=
    slotCount_le _ _ _ _
  constructor
  · intro fuel hf
    rw [genSlots_closed _ _ _ hstep fuel startM (le_trans hcle hf),
      genSlots_closed _ _ _ hstep (endM + 1) startM hcle]
  · intro x
    rw [genSlots_closed _ _ _ hstep (endM + 1) startM hcle]
    simp only [List.mem_map, List.mem_range]
    constructor
    · rintro ⟨k, hk, rfl⟩
      refine ⟨k, rfl, ?_⟩
      have := (slotCount_iff startM endM dur (dur + buffer) k hstep).1 hk
      omega
    · rintro ⟨k, rfl, hx⟩
      exact ⟨k, (slotCount_iff startM endM dur (dur + buffer) k hstep).2 (by omega), rfl⟩

theorem slot_loop_termination_witness :
    (genSlots 2000 540 30 (30 + 15) 1020 = genSlots 1021 540 30 (30 + 15) 1020)
    ∧ (585 ∈ genSlots 1021 540 30 (30 + 15) 1020 ↔
        ∃ k, 585 = 540 + k * (30 + 15) ∧ 585 + 30 ≤ 1020) :=
  ⟨(slot_loop_termination 540 1020 30 15 (by decide)).1 2000 (by decide),
   (slot_loop_termination 540 1020 30 15 (by decide)).2 585⟩

/-! ## Claim theorems: booking lifecycle -/

/-- C1 (amended): a successful reschedule of a non-cancelled, non-completed
appointment overwrites the interval, records the original date/time,
reason, actor and timestamp, recomputes the duration, and sets the status
to `rescheduled` (the source keeps that status; it does not return to
`scheduled`). The structure literal keeps every other field of `a`. -/
theorem reschedule_success (appts : List Appointment) (dentists : List Dentist)
    (id : Nat) (newDate : DateCal) (ns ne reason : String) (rby : Actor)
    (today now : Nat) (a : Appointment) (dentist : Dentist)
    (hfind : appts.find? (·.id == id) = some a)
    (hs1 : a.status ≠ .cancelled) (hs2 : a.status ≠ .completed)
    (hdate : ¬ newDate.ord < today)
    (hdent : dentists.find? (·.id == a.dentist) = some dentist)
    (havail : dentist.isAvailableAt newDate ns ne = true)
    (hconf : (checkConflict appts a.dentist newDate ns ne (some id)).isSome = false) :
    (rescheduleAppointment appts dentists id newDate ns ne reason rby today now).1 =
      .ok { a with
        appointmentDate := newDate
        startTime := ns
        endTime := ne
        duration := (timeMinutes ne : Int) - (timeMinutes ns : Int)
        status := .rescheduled
        rescheduling := some ⟨a.appointmentDate, a.startTime, reason, rby, now⟩ } := by
  rw [rescheduleAppointment, hfind]
  simp only [hdent, havail, hconf]
  have hst : ¬(a.status = .cancelled ∨ a.status = .completed) := by tauto
  simp [hst, hdate, Appointment.reschedule, applySaveHook]

theorem reschedule_success_witness :
    (rescheduleAppointment [aptResch] [dentResch] 1 ⟨1, 207⟩ "11:00" "11:30"
        "clash" .staff 100 55).1 =
      .ok { aptResch with
        appointmentDate := ⟨1, 207⟩
        startTime := "11:00"
        endTime := "11:30"
        duration := (timeMinutes "11:30" : Int) - (timeMinutes "11:00" : Int)
        status := .rescheduled
        rescheduling := some ⟨aptResch.appointmentDate, aptResch.startTime,
          "clash", .staff, 55⟩ } :=
  reschedule_success [aptResch] [dentResch] 1 ⟨1, 207⟩ "11:00" "11:30" "clash"
    .staff 100 55 aptResch dentResch rfl (by decide) (by decide) (by decide)
    rfl (by decide) (by decide)

/-- C1 counterexample: at a concrete input where every guard passes, the
successful reschedule leaves the appointment in status `rescheduled`,
not `scheduled` as the claim states. -/
theorem reschedule_not_scheduled :
    ((rescheduleAppointment [aptResch] [dentResch] 1 ⟨1, 207⟩ "11:00" "11:30"
        "clash" .staff 100 55).1 =
      .ok (aptResch.reschedule ⟨1, 207⟩ "11:00" "11:30" "clash" .staff 55))
    ∧ (aptResch.reschedule ⟨1, 207⟩ "11:00" "11:30" "clash" .staff 55).status =
        .rescheduled
    ∧ Status.rescheduled ≠ Status.scheduled :=
  ⟨rfl, rfl, by decide⟩

/-- C4 (amended): when an update touches the date or times but not the
practitioner, only the conflict check (excluding the appointment's own id)
gates the update — the availability predicate is not re-run; when the
practitioner field is itself among a date/time-touching update, the dentist
existence/active checks, the availability predicate and the conflict check
all gate the update; and when no date/time field is touched, no validation
runs at all, whatever else changes. -/
theorem update_validation (appts : List Appointment) (dentists : List Dentist)
    (id : Nat) (u : AppointmentUpdates) (a : Appointment)
    (hfind : appts.find? (·.id == id) = some a) :
    ((u.appointmentDate.isSome || u.startTime.isSome || u.endTime.isSome) = true →
      u.dentist = none →
      (updateAppointment appts dentists id u).1 =
        (if (checkConflict appts a.dentist (u.appointmentDate.getD a.appointmentDate)
              (u.startTime.getD a.startTime) (u.endTime.getD a.endTime)
              (some id)).isSome
          then .error (.conflictError "Appointment time conflicts with existing appointment")
          else .ok (applyUpdates a u)))
    ∧ (∀ dId, (u.appointmentDate.isSome || u.startTime.isSome || u.endTime.isSome) = true →
      u.dentist = some dId →
      (updateAppointment appts dentists id u).1 =
        (match dentists.find? (·.id == dId) with
         | none => .error (.badRequest "Selected dentist is not available")
         | some dentist =>
           if dentist.status ≠ .active then
             .error (.badRequest "Selected dentist is not available")
           else if !dentist.isAvailableAt (u.appointmentDate.getD a.appointmentDate)
               (u.startTime.getD a.startTime) (u.endTime.getD a.endTime) then
             .error (.conflictError "Dentist is not available at the requested time")
           else if (checkConflict appts dId (u.appointmentDate.getD a.appointmentDate)
               (u.startTime.getD a.startTime) (u.endTime.getD a.endTime)
               (some id)).isSome then
             .error (.conflictError "Appointment time conflicts with existing appointment")
           else .ok (applyUpdates a u)))
    ∧ ((u.appointmentDate.isSome || u.startTime.isSome || u.endTime.isSome) = false →
      (updateAppointment appts dentists id u).1 = .ok (applyUpdates a u)) := by
  refine ⟨?_, ?_, ?_⟩
  · intro htouch hnone
    rw [updateAppointment, hfind]
    simp only [htouch, hnone, if_true, Option.getD_none]
    split <;> rfl
  · intro dId htouch hsome
    rw [updateAppointment, hfind]
    simp only [htouch, hsome, if_true, Option.getD_some]
    cases hf : dentists.find? (fun x => x.id == dId) with
    | none => rfl
    | some dentist =>
      split
      · rfl
      · split
        · rfl
        · split
          · rfl
          · split <;> rfl
  · intro htouch
    rw [updateAppointment, hfind]
    simp [htouch]

theorem update_validation_witness :
    ((updateAppointment [aptUpd] [dentUpd] 1 updEvening).1 =
      (if (checkConflict [aptUpd] aptUpd.dentist
            (updEvening.appointmentDate.getD aptUpd.appointmentDate)
            (updEvening.startTime.getD aptUpd.startTime)
            (updEvening.endTime.getD aptUpd.endTime) (some 1)).isSome
        then .error (.conflictError "Appointment time conflicts with existing appointment")
        else .ok (applyUpdates aptUpd updEvening)))
    ∧ (updateAppointment [aptUpd] [dentUpd, dentSwap] 1 updSwap).1 =
        .ok (applyUpdates aptUpd updSwap) :=
  ⟨(update_validation [aptUpd] [dentUpd] 1 updEvening aptUpd rfl).1 (by decide) rfl,
   (update_validation [aptUpd] [dentUpd, dentSwap] 1 updSwap aptUpd rfl).2.1 9
     (by decide) rfl⟩

/-- C4 counterexample: a date/time-only update to 18:00–18:30 is accepted
although the appointment's own dentist is not available then — the
availability predicate is not re-run when the practitioner field is
untouched, contradicting the claim. -/
theorem update_skips_availability :
    (updateAppointment [aptUpd] [dentUpd] 1 updEvening).1 =
      .ok (applyUpdates aptUpd updEvening)
    ∧ aptUpd.dentist = dentUpd.id
    ∧ dentUpd.isAvailableAt aptUpd.appointmentDate "18:00" "18:30" = false :=
  ⟨rfl, rfl, by decide⟩

/-- C5 (amended): `confirmAppointment` is unguarded — for any stored
appointment, whatever its current status, it succeeds and sets the status
to `confirmed`; no `IllegalTransition` error exists on this path. -/
theorem confirm_unguarded (appts : List Appointment) (id : Nat) (a : Appointment)
    (hfind : appts.find? (·.id == id) = some a) :
    (confirmAppointment appts id).1 = .ok { a with status := .confirmed } := by
  rw [confirmAppointment, hfind]

theorem confirm_unguarded_witness :
    (confirmAppointment [aptCancelled] 1).1 =
      .ok { aptCancelled with status := Status.confirmed } :=
  confirm_unguarded [aptCancelled] 1 aptCancelled rfl

/-- C5 counterexample: confirming a cancelled appointment does not fail
with any error and does not leave the status unchanged — it overwrites the
status with `confirmed`, contradicting the claim. -/
theorem confirm_from_cancelled :
    aptCancelled.status = .cancelled
    ∧ (confirmAppointment [aptCancelled] 1).1 =
        .ok { aptCancelled with status := Status.confirmed }
    ∧ ({ aptCancelled with status := Status.confirmed }).status ≠ aptCancelled.status :=
  ⟨rfl, rfl, by decide⟩

/-- C6: cancelling an already-cancelled or a completed appointment is
rejected with the corresponding 400 error and the stored collection is
returned untouched — no field changes and no cancellation record is
written. -/
theorem cancel_illegal (appts : List Appointment) (id : Nat) (reason : String)
    (refund : Nat) (cby : Actor) (now : Nat) (a : Appointment)
    (hfind : appts.find? (·.id == id) = some a)
    (hstat : a.status = .cancelled ∨ a.status = .completed) :
    cancelAppointment appts id reason refund cby now =
      (.error (.badRequest
        (if a.status = .cancelled then "Appointment is already cancelled"
         else "Cannot cancel completed appointment")), appts) := by
  rw [cancelAppointment, hfind]
  rcases hstat with h | h <;> simp [h]

theorem cancel_illegal_witness :
    cancelAppointment [aptDone] 1 "late" 0 .patient 90 =
      (.error (.badRequest
        (if aptDone.status = .cancelled then "Appointment is already cancelled"
         else "Cannot cancel completed appointment")), [aptDone]) :=
  cancel_illegal [aptDone] 1 "late" 0 .patient 90 aptDone rfl (by decide)

/-- C9: a successful cancel produces exactly the input appointment with the
status set to `cancelled` and the cancellation record filled in — the
structure literal keeps every other field (interval, references,
treatments, cost, rescheduling record, ...) of `a`; the duration hypothesis
is the stored invariant maintained by every save. -/
theorem cancel_frame (appts : List Appointment) (id : Nat) (reason : String)
    (refund : Nat) (cby : Actor) (now : Nat) (a : Appointment)
    (hfind : appts.find? (·.id == id) = some a)
    (hc : a.status ≠ .cancelled) (hcomp : a.status ≠ .completed)
    (hdur : a.duration = (timeMinutes a.endTime : Int) - (timeMinutes a.startTime : Int)) :
    (cancelAppointment appts id reason refund cby now).1 =
      .ok { a with
        status := .cancelled
        cancellation := some ⟨reason, cby, now, refund⟩ } := by
  rw [cancelAppointment, hfind]
  simp only [hc, hcomp, if_false, Appointment.cancel, applySaveHook]
  rw [← hdur]

theorem cancel_frame_witness :
    (cancelAppointment [aptLive] 1 "sick" 20 .patient 90).1 =
      .ok { aptLive with
        status := Status.cancelled
        cancellation := some ⟨"sick", .patient, 90, 20⟩ } :=
  cancel_frame [aptLive] 1 "sick" 20 .patient 90 aptLive rfl (by decide)
    (by decide) (by decide)

/-- C10: when the status and date guards pass but no dentist record matches
the appointment's practitioner reference, the reschedule fails with the
null-dereference crash (a JS `TypeError`), not with the 404 not-found
domain error, and the stored collection is untouched. -/
theorem reschedule_missing_dentist (appts : List Appointment)
    (dentists : List Dentist) (id : Nat) (newDate : DateCal) (ns ne reason : String)
    (rby : Actor) (today now : Nat) (a : Appointment)
    (hfind : appts.find? (·.id == id) = some a)
    (hs1 : a.status ≠ .cancelled) (hs2 : a.status ≠ .completed)
    (hdate : ¬ newDate.ord < today)
    (hdent : dentists.find? (·.id == a.dentist) = none) :
    rescheduleAppointment appts dentists id newDate ns ne reason rby today now =
      (.error .nullDereference, appts)
    ∧ ApiError.nullDereference ≠ ApiError.notFound := by
  have hst : ¬(a.status = .cancelled ∨ a.status = .completed) := by tauto
  constructor
  · rw [rescheduleAppointment, hfind]
    simp [hst, hdate, hdent]
  · decide

theorem reschedule_missing_dentist_witness :
    rescheduleAppointment [aptOrphan] [] 1 ⟨1, 207⟩ "11:00" "11:30" "move"
        .staff 100 55 =
      (.error .nullDereference, [aptOrphan])
    ∧ ApiError.nullDereference ≠ ApiError.notFound :=
  reschedule_missing_dentist [aptOrphan] [] 1 ⟨1, 207⟩ "11:00" "11:30" "move"
    .staff 100 55 aptOrphan rfl (by decide) (by decide) (by decide) rfl

end Smile
